import Mathlib

/-!
Shallow embedding of the local kernel-spec finder of this repository
(`src/src/notebooks/export/exportToHTML.ts`, second document: the
`LocalKernelSpecFinderBase` class and the free function `loadKernelSpec`).

Modelling choices:
* Strings are Lean `String`s; the JS `toLowerCase`/`toUpperCase` calls are
  modelled character-wise with `Char.toLower`/`Char.toUpper` (exact on ASCII,
  which is the alphabet the code's own constants use).
* `fs.readFile` composed with `JSON.parse` is modelled as a single function
  `String -> Option KernelJson` (`none` = read or parse failure, the code's
  `catch` branch).  `fs.exists` is `String -> Bool`.
* Promises are settled values; the single-threaded JS event loop is modelled
  by explicit state passing, and the settle/cancellation handlers that the
  code attaches to a promise are separate state-transition functions.
* `getComparisonKey` (an external URI-normalisation helper) is modelled as
  the identity on the file-system path it is given.
* External helpers imported from other modules of the repository
  (`getInterpreterKernelSpecName`, `getKernelRegistrationInfo`,
  `uriPath.isEqualOrParent`) are taken as function parameters.
-/

/-- Character-wise model of the JS `String.prototype.toLowerCase` call. -/
def toLowerStr (s : String) : String := ⟨s.data.map Char.toLower⟩

/-- Character-wise model of the JS `String.prototype.toUpperCase` call. -/
def toUpperStr (s : String) : String := ⟨s.data.map Char.toUpper⟩

/-- Model of the JS `String.prototype.includes` test: does `pat` occur as a
contiguous substring of `s`?  Implemented as a scan over every suffix. -/
def strIncludesAux (pat : List Char) : List Char → Bool
  | [] => pat.isEmpty
  | l@(_ :: rest) => pat.isPrefixOf l || strIncludesAux pat rest

/-- JS `s.includes(pat)`. -/
def strIncludes (s pat : String) : Bool := strIncludesAux pat.data s.data

/-- Digit class of the regex (`\d`). -/
def jsDigit (c : Char) : Bool := decide ('0' ≤ c) && decide (c ≤ '9')

/-- Whitespace class of the regex (`\s`): the JS whitespace code points. -/
def jsWhitespace (c : Char) : Bool :=
  let n := c.toNat
  n == 32 || (9 ≤ n && n ≤ 13) || n == 0xa0 || n == 0x1680 ||
    (0x2000 ≤ n && n ≤ 0x200a) || n == 0x2028 || n == 0x2029 ||
    n == 0x202f || n == 0x205f || n == 0x3000 || n == 0xfeff

/-- Dot of the regex without the `s` flag: any character except the four
line terminators. -/
def jsDot (c : Char) : Bool :=
  !(c == '\n' || c == '\r' || c.toNat == 0x2028 || c.toNat == 0x2029)

/-- Matcher for the tail `\d*.?\d*$` of the regex
`isDefaultPythonKernelSpecSpecName = /python\s\d*.?\d*$/` against the whole
remainder of the string: the remainder decomposes as digits, at most one
dot-class character, then digits.  (Scanning the maximal digit prefix first
is complete because a digit is itself in the dot class.) -/
def defaultSpecNameTail : List Char → Bool
  | [] => true
  | c :: cs => if jsDigit c then defaultSpecNameTail cs else jsDot c && cs.all jsDigit

/-- Does the regex `python\s\d*.?\d*$` match starting exactly at this
position of the subject? -/
def defaultSpecNameHere (l : List Char) : Bool :=
  ("python".data).isPrefixOf l &&
    (match l.drop 6 with
     | [] => false
     | w :: rest => jsWhitespace w && defaultSpecNameTail rest)

/-- Search loop of the regex match: try every start position. -/
def defaultSpecNameSearch : List Char → Bool
  | [] => false
  | l@(_ :: rest) => defaultSpecNameHere l || defaultSpecNameSearch rest

/-- Truthiness of `s.match(isDefaultPythonKernelSpecSpecName)` where
`isDefaultPythonKernelSpecSpecName = /python\s\d*.?\d*$/` (source line 56). -/
def isDefaultPythonKernelSpecSpecNameMatch (s : String) : Bool :=
  defaultSpecNameSearch s.data

/-- Constant `PYTHON_LANGUAGE` from `platform/common/constants`. -/
def PYTHON_LANGUAGE : String := "python"

/-- Constant `oldKernelsSpecFolderName` (source line 57). -/
def oldKernelsSpecFolderName : String := "__old_vscode_kernelspecs"

/-- The standard launch tokens filtered out of `argv` (source line 382). -/
def standardKernelArgTokens : List String :=
  ["-m", "ipykernel", "ipykernel_launcher", "-f", "\x7bconnection_file\x7d"]

/-- JS truthiness of an optional string (`undefined` and the empty string are
falsy). -/
def strTruthy : Option String → Bool
  | some s => !(s == "")
  | none => false

/-- JS `a || b` on optional strings. -/
def jsOrStr (a b : Option String) : Option String := if strTruthy a then a else b

/-- POSIX model of `path.dirname`: everything before the last separator. -/
def dirname (p : String) : String :=
  String.intercalate "/" ((p.splitOn "/").dropLast)

/-- POSIX model of `path.basename`: everything after the last separator. -/
def basename (p : String) : String := ((p.splitOn "/").getLastD "")

/-- POSIX model of `path.join` on two segments. -/
def joinPath (a b : String) : String := a ++ "/" ++ b

/-- Nested `metadata.vscode` block of a kernel-spec JSON file. -/
structure VSCodeSpecMetadata where
  originalSpecFile : Option String := none
  originalDisplayName : Option String := none
deriving Repr, DecidableEq

/-- The `metadata` field of a kernel-spec JSON file: the nested `vscode`
block, the legacy top-level `originalSpecFile` field, and
`metadata.interpreter.path`. -/
structure KernelSpecMetadata where
  vscode : Option VSCodeSpecMetadata := none
  originalSpecFile : Option String := none
  interpreterPath : Option String := none
deriving Repr, DecidableEq

/-- A kernel-spec JSON file as parsed from disk (the `ReadWrite
IJupyterKernelSpec` value the loader mutates). -/
structure KernelJson where
  name : String
  display_name : String
  language : String
  argv : List String
  metadata : Option KernelSpecMetadata := none
deriving Repr, DecidableEq

/-- The slice of `PythonEnvironment` the finder reads: `interpreter.uri.fsPath`. -/
structure PythonEnvironment where
  uriFsPath : String
deriving Repr, DecidableEq

/-- The record produced by `loadKernelSpec` (the `JupyterKernelSpec` class),
restricted to the fields this file reads or writes. -/
structure JupyterKernelSpec where
  name : String
  display_name : String
  language : String
  argv : List String
  specFile : Option String
  interpreterPath : Option String
  metadata : KernelSpecMetadata
deriving Repr, DecidableEq

/-- Black-box filesystem collaborator (`IFileSystemNode`): `readFile`
composed with `JSON.parse`, and `exists`. -/
structure FileSystem where
  readFile : String → Option KernelJson
  pathExists : String → Bool

/-- Reads `kernelJson?.metadata?.interpreter?.path`. -/
def metadataInterpreterPath : Option KernelSpecMetadata → Option String
  | some m => m.interpreterPath
  | none => none

/-- The non-standard launch arguments extracted at source lines 379-382:
drop `argv[0]` (the interpreter invocation), lower-case, and filter out the
standard tokens. -/
def nonStandardArgv (argv : List String) : List String :=
  ((argv.drop 1).map toLowerStr).filter (fun arg => !(standardKernelArgTokens.contains arg))

/-- Final existence check of the loader (source lines 413-415): the result
is kept unless the referenced interpreter path is truthy and does not exist. -/
def interpreterExistsCheck (fs : FileSystem) (ip : Option String) : Bool :=
  !(strTruthy ip) || fs.pathExists (ip.getD "")

/-- Pure normalisation part of `loadKernelSpec` (source lines 364-410), for a
successfully parsed `kernelJson`.  `ikn` is the external helper
`getInterpreterKernelSpecName`. -/
def normalizeKernelJson (ikn : PythonEnvironment → String) (specPath : String)
    (interpreter : Option PythonEnvironment) (kernelJson0 : KernelJson) :
    JupyterKernelSpec :=
  -- line 368: regenerate the name when an owning interpreter is supplied.
  -- The TS code mutates `kernelJson.name` in place; every later read of
  -- `display_name`, `language`, `argv` and `metadata` sees the unchanged
  -- fields, so the name is tracked on its own here.
  let name1 : String :=
    match interpreter with
    | some i => ikn i
    | none => kernelJson0.name
  -- lines 374-386: display-name heuristic appending non-standard argv
  let isDefaultPythonName :=
    isDefaultPythonKernelSpecSpecNameMatch (toLowerStr kernelJson0.display_name)
  let name2 : String :=
    if !isDefaultPythonName && kernelJson0.language == PYTHON_LANGUAGE
        && decide (kernelJson0.argv.length > 2) then
      let argv := nonStandardArgv kernelJson0.argv
      if !argv.isEmpty then name1 ++ "." ++ String.intercalate "#" argv
      else name1
    else name1
  -- lines 387-398: metadata normalisation
  let md0 : KernelSpecMetadata := kernelJson0.metadata.getD {}
  let vs0 : VSCodeSpecMetadata := md0.vscode.getD {}
  let vs1 : VSCodeSpecMetadata :=
    if strTruthy vs0.originalSpecFile then vs0
    else { vs0 with originalSpecFile := some specPath }
  let vs2 : VSCodeSpecMetadata :=
    if strTruthy vs1.originalDisplayName then vs1
    else { vs1 with originalDisplayName := some kernelJson0.display_name }
  let md2 : KernelSpecMetadata :=
    if strTruthy md0.originalSpecFile then
      { vscode := some { vs2 with originalSpecFile := md0.originalSpecFile }
        originalSpecFile := none
        interpreterPath := md0.interpreterPath }
    else
      { vscode := some vs2
        originalSpecFile := md0.originalSpecFile
        interpreterPath := md0.interpreterPath }
  -- lines 400-407: construct the JupyterKernelSpec record
  let interpPath : Option String :=
    jsOrStr (interpreter.map PythonEnvironment.uriFsPath) md2.interpreterPath
  -- line 410: name fallback to the parent directory base name
  { name := if name2 == "" then basename (dirname specPath) else name2
    display_name := kernelJson0.display_name
    language := kernelJson0.language
    argv := kernelJson0.argv
    specFile := some specPath
    interpreterPath := interpPath
    metadata := md2 }

/-- The free function `loadKernelSpec` (source lines 338-419). -/
def loadKernelSpec (ikn : PythonEnvironment → String) (fs : FileSystem)
    (specPath : String) (cancelRequested : Bool)
    (interpreter : Option PythonEnvironment) : Option JupyterKernelSpec :=
  -- lines 344-347: reject paths inside the quarantine folder
  if strIncludes specPath oldKernelsSpecFolderName then none
  else
    match fs.readFile specPath with
    | none => none -- lines 355-359: read or parse failure
    | some kernelJson0 =>
      -- lines 360-362 and 369-371: cancellation checks between async steps
      if cancelRequested then none
      else
        let spec := normalizeKernelJson ikn specPath interpreter kernelJson0
        -- lines 413-415: a kernel pointing at a deleted interpreter is absent
        if interpreterExistsCheck fs spec.interpreterPath then some spec else none

/-- The slice of `LocalKernelConnectionMetadata` (kernels/types) that
`isValidCachedKernel` reads: the `kind` tag, `interpreter.uri`,
`kernelSpec.specFile`. -/
inductive LocalKernelConnectionMetadata where
  | startUsingPythonInterpreter (interpreterUri : String)
  | startUsingLocalKernelSpec (specFile : Option String) (interpreterUri : Option String)
deriving Repr, DecidableEq

/-- Method `isValidCachedKernel` (source lines 197-212), translated branch by
branch; in particular the local-kernel-spec branch returns the value of the
conditional expression at lines 208-210 exactly as written. -/
def isValidCachedKernel (fs : FileSystem) : LocalKernelConnectionMetadata → Bool
  | .startUsingPythonInterpreter interpreterUri => fs.pathExists interpreterUri
  | .startUsingLocalKernelSpec specFile interpreterUri =>
      let r := match specFile with
        | some f => fs.pathExists f
        | none => true
      if r && interpreterUri.isSome then
        match interpreterUri with
        | some u => fs.pathExists u
        | none => true
      else true

/-- The versioned blob stored in the memento: `\x7b kernels, extensionVersion \x7d`. -/
structure CachedKernelsBlob where
  kernels : List LocalKernelConnectionMetadata
  extensionVersion : String
deriving Repr, DecidableEq

/-- Method `listKernelsFirstTimeFromMemento` (source lines 155-185).
`globalStateGet` models `this.globalState.get` (with `none` for a missing
key, replaced by the inline default); `deserializeKernelConnection` is
modelled as the identity on the record slice; the concurrent
validate-and-push loop is a filter because validation is pure here. -/
def listKernelsFirstTimeFromMemento (fs : FileSystem)
    (globalStateGet : String → Option CachedKernelsBlob)
    (runningExtensionVersion : String) (cacheKey : String) :
    List LocalKernelConnectionMetadata :=
  let cache := (globalStateGet cacheKey).getD { kernels := [], extensionVersion := "" }
  let kernels :=
    if cache.extensionVersion == runningExtensionVersion then cache.kernels else []
  kernels.filter (fun item => isValidCachedKernel fs item)

/-- The slice of a kernel connection record that `listKernelsWithCache`
reads: the derived `id`, `kernelSpec.display_name`, and (to keep records
sharing an id distinguishable) the remaining payload. -/
structure KernelConnectionRecord where
  id : String
  displayName : String
  rest : String
deriving Repr, DecidableEq

/-- Deduplication by derived id (source lines 127-133): insertion into a map
keyed by `id`, first occurrence wins, insertion order preserved. -/
def distinctKernelMetadataFold (items : List KernelConnectionRecord) :
    List KernelConnectionRecord :=
  items.foldl
    (fun acc k => if acc.any (fun x => x.id == k.id) then acc else acc ++ [k]) []

/-- Sort key of the comparator at source lines 135-145:
`kernelSpec.display_name.toUpperCase()`, compared lexicographically. -/
def displayNameSortKey (r : KernelConnectionRecord) : List Char :=
  (toUpperStr r.displayName).data

/-- The total preorder induced by the comparator at source lines 135-145:
`a` sorts no later than `b` when the comparator does not return 1. -/
def displayNameRel (a b : KernelConnectionRecord) : Prop :=
  displayNameSortKey a ≤ displayNameSortKey b

instance : DecidableRel displayNameRel := fun a b =>
  inferInstanceAs (Decidable (displayNameSortKey a ≤ displayNameSortKey b))

instance : IsTotal KernelConnectionRecord displayNameRel :=
  ⟨fun a b => le_total (displayNameSortKey a) (displayNameSortKey b)⟩

instance : IsTrans KernelConnectionRecord displayNameRel :=
  ⟨fun _ _ _ => le_trans⟩

/-- Result-processing step of `listKernelsWithCache` (source lines 126-146):
deduplicate by derived id, then stable-sort by upper-cased display name (the
JS engine's `Array.prototype.sort` is a stable sort, modelled by insertion
sort over the comparator's preorder). -/
def listKernelsProcess (items : List KernelConnectionRecord) :
    List KernelConnectionRecord :=
  List.insertionSort displayNameRel (distinctKernelMetadataFold items)

/-- Search argument of `findKernelSpecsInPath`: a bare URI or an
(interpreter, search path) pair. -/
inductive SearchItem where
  | plainUri (uri : String)
  | withInterpreter (interpreter : PythonEnvironment) (kernelSearchPath : String)
deriving Repr, DecidableEq

/-- Composite cache key of `findKernelSpecsInPath` (source lines 290-292),
with `getComparisonKey` modelled as the identity. -/
def searchCacheKey : SearchItem → String
  | .plainUri u => u
  | .withInterpreter i p => i.uriFsPath ++ p

/-- The directory actually searched (source line 298). -/
def searchPathOf : SearchItem → String
  | .plainUri u => u
  | .withInterpreter _ p => p

/-- State of the path-search cache: `findKernelSpecsInPathCache` as an
association list from composite key to promise id, the registered
cancellation listeners (key and promise of each), a fresh-promise counter,
and the number of `fs.searchLocal` glob invocations issued so far. -/
structure PathSearchState where
  cache : List (String × Nat) := []
  listenersLive : List (String × Nat) := []
  nextPromiseId : Nat := 0
  globInvocations : Nat := 0
deriving Repr, DecidableEq

/-- Method `findKernelSpecsInPath` (source lines 286-332) as one step of the
event loop: return the memoized promise when the key is cached, otherwise
mint a fresh promise (running the glob when the search path exists and
cancellation was not yet requested), cache it, and register a cancellation
listener for it.  Returns the promise id handed to the caller. -/
def findKernelSpecsInPath (fs : FileSystem) (cancelRequested : Bool)
    (item : SearchItem) (st : PathSearchState) : Nat × PathSearchState :=
  let cacheKey := searchCacheKey item
  match List.lookup cacheKey st.cache with
  | some pid => (pid, st)
  | none =>
    let pid := st.nextPromiseId
    let globRuns := if fs.pathExists (searchPathOf item) && !cancelRequested then 1 else 0
    (pid,
     { cache := (cacheKey, pid) :: st.cache
       listenersLive := (cacheKey, pid) :: st.listenersLive
       nextPromiseId := pid + 1
       globInvocations := st.globInvocations + globRuns })

/-- Event: the search promise for `(cacheKey, pid)` resolved successfully.
The only attached settle handler on the success path is the `finally` that
disposes the cancellation listener (source line 324); no handler touches the
cache. -/
def onSearchResolved (cacheKey : String) (pid : Nat) (st : PathSearchState) :
    PathSearchState :=
  { st with
    listenersLive := st.listenersLive.filter (fun e => !(e.1 == cacheKey && e.2 == pid)) }

/-- Event: the search promise for `(cacheKey, pid)` rejected.  The `finally`
disposes the listener and the `catch` handler (source lines 325-330) evicts
the cache entry when it still holds this very promise. -/
def onSearchRejected (cacheKey : String) (pid : Nat) (st : PathSearchState) :
    PathSearchState :=
  let st1 :=
    { st with
      listenersLive := st.listenersLive.filter (fun e => !(e.1 == cacheKey && e.2 == pid)) }
  if List.lookup cacheKey st1.cache == some pid then
    { st1 with cache := st1.cache.filter (fun e => !(e.1 == cacheKey)) }
  else st1

/-- Event: cancellation was requested; every live listener (source lines
319-323) evicts its cache entry when the entry still holds its promise. -/
def onCancellationRequestedEvent (st : PathSearchState) : PathSearchState :=
  { st with
    cache := st.listenersLive.foldl
      (fun c e =>
        if List.lookup e.1 c == some e.2 then c.filter (fun en => !(en.1 == e.1)) else c)
      st.cache }

/-- Success or failure outcomes of the filesystem calls made by
`deleteOldKernelSpec`. -/
structure QuarantineFS where
  createDirectorySucceeds : Bool
  copySucceeds : Bool
  deleteSucceeds : Bool
deriving Repr, DecidableEq

/-- Observable outcome of one `deleteOldKernelSpec` run. -/
structure QuarantineResult where
  raisedError : Bool
  copiedToArchive : Bool
  deletedOriginal : Bool
  oldKernelSpecsFolderSet : Option String
deriving Repr, DecidableEq

/-- Method `deleteOldKernelSpec` (source lines 256-266): record the backup
folder, create the destination directory (failure propagates), copy with a
swallowing `catch(noop)`, then delete the original unconditionally (failure
propagates). -/
def deleteOldKernelSpec (fsb : QuarantineFS) (kernelSpecFile : String) :
    QuarantineResult :=
  let kernelSpecFolderName := basename (dirname kernelSpecFile)
  let destinationFolder := joinPath (dirname (dirname kernelSpecFile)) oldKernelsSpecFolderName
  let _destinationFile :=
    joinPath (joinPath destinationFolder kernelSpecFolderName) (basename kernelSpecFile)
  if !fsb.createDirectorySucceeds then
    { raisedError := true, copiedToArchive := false, deletedOriginal := false
      oldKernelSpecsFolderSet := some destinationFolder }
  else
    -- the copy failure is swallowed by `.catch(noop)` (source line 263)
    let copied := fsb.copySucceeds
    if fsb.deleteSucceeds then
      { raisedError := false, copiedToArchive := copied, deletedOriginal := true
        oldKernelSpecsFolderSet := some destinationFolder }
    else
      { raisedError := true, copiedToArchive := copied, deletedOriginal := false
        oldKernelSpecsFolderSet := some destinationFolder }

/-- State of the per-file kernel-spec memoization: `pathToKernelSpec` as an
association list from comparison key (the spec path) to the settled load
result, plus the `cache` field filtered on eviction (source line 251). -/
structure FinderState where
  pathToKernelSpec : List (String × Option JupyterKernelSpec) := []
  specFileCache : Option (List (Option PythonEnvironment × String)) := none
deriving Repr, DecidableEq

/-- Method `getKernelSpec` (source lines 216-254).  `regInfo` models the
external `getKernelRegistrationInfo` helper and `eqOrParent` the external
`uriPath.isEqualOrParent`; `getComparisonKey` is the identity on the path.
On a cache miss the load runs and its settled result is stored under the
path-only key; the `then` handler then either returns the record, or (when
the load failed or the spec is a to-be-deleted extension-registered one
under the global root) evicts the entry and returns absent. -/
def getKernelSpec (ikn : PythonEnvironment → String)
    (regInfo : JupyterKernelSpec → Bool) (eqOrParent : String → String → Bool)
    (fs : FileSystem) (st : FinderState) (specPath : String)
    (cancelRequested : Bool) (interpreter : Option PythonEnvironment)
    (globalSpecRootPath : Option String) :
    Option JupyterKernelSpec × FinderState :=
  -- lines 222-225: quarantine folder check
  if strIncludes specPath oldKernelsSpecFolderName then (none, st)
  else
    let key := specPath
    let st1 :=
      match List.lookup key st.pathToKernelSpec with
      | some _ => st
      | none =>
        { st with
          pathToKernelSpec :=
            (key, loadKernelSpec ikn fs specPath cancelRequested interpreter)
              :: st.pathToKernelSpec }
    let loaded := (List.lookup key st1.pathToKernelSpec).getD none
    -- lines 234-239
    let shouldDeleteKernelSpec :=
      match loaded, globalSpecRootPath with
      | some ks, some root =>
          regInfo ks && strTruthy ks.specFile && eqOrParent (ks.specFile.getD "") root
      | _, _ => false
    match loaded with
    | some ks =>
      if !shouldDeleteKernelSpec then (some ks, st1)
      else
        -- lines 243-252: fire-and-forget deleteOldKernelSpec, then eviction
        (none,
         { pathToKernelSpec := st1.pathToKernelSpec.filter (fun e => !(e.1 == key))
           specFileCache := st1.specFileCache.map (fun l => l.filter (fun it => it.2 == specPath)) })
    | none =>
        (none,
         { pathToKernelSpec := st1.pathToKernelSpec.filter (fun e => !(e.1 == key))
           specFileCache := st1.specFileCache.map (fun l => l.filter (fun it => it.2 == specPath)) })

/-! Concrete fixtures used by counterexamples and witnesses. -/

/-- A custom kernel-spec file: non-default display name, Python language, a
non-standard extra launch argument. -/
def fixtureCustomJson : KernelJson :=
  { name := "mykernel", display_name := "My Custom Kernel", language := "python",
    argv := ["python", "-m", "ipykernel_launcher", "-f", "\x7bconnection_file\x7d", "--debug"] }

/-- A default Python kernel-spec file. -/
def fixtureDefaultJson : KernelJson :=
  { name := "python3", display_name := "Python 3.9", language := "python",
    argv := ["python", "-m", "ipykernel_launcher", "-f", "\x7bconnection_file\x7d"] }

/-- Filesystem holding the two fixture spec files; no other path exists. -/
def fixtureFS : FileSystem :=
  { readFile := fun p =>
      if p == "/kernels/mykernel/kernel.json" then some fixtureCustomJson
      else if p == "/kernels/python3/kernel.json" then some fixtureDefaultJson
      else none
    pathExists := fun _ => false }

/-- Filesystem whose directories all exist and whose files are unreadable;
used for the path-search cache scenarios. -/
def fixtureDirFS : FileSystem :=
  { readFile := fun _ => none, pathExists := fun _ => true }

/-- The record `loadKernelSpec` produces for `fixtureDefaultJson`. -/
def fixtureDefaultSpec : JupyterKernelSpec :=
  { name := "python3", display_name := "Python 3.9", language := "python",
    argv := ["python", "-m", "ipykernel_launcher", "-f", "\x7bconnection_file\x7d"],
    specFile := some "/kernels/python3/kernel.json", interpreterPath := none,
    metadata := { vscode := some { originalSpecFile := some "/kernels/python3/kernel.json",
                                   originalDisplayName := some "Python 3.9" },
                  originalSpecFile := none, interpreterPath := none } }

/-- Search item used by the path-search cache scenarios. -/
def fixtureSearchItem : SearchItem := .plainUri "/usr/local/share/jupyter/kernels"

/-- Quarantine scenario in which only the copy step fails. -/
def fixtureCopyFailure : QuarantineFS :=
  { createDirectorySucceeds := true, copySucceeds := false, deleteSucceeds := true }

/-- A persisted blob written by extension version 1.0.0. -/
def fixtureStaleBlob : CachedKernelsBlob :=
  { kernels := [.startUsingPythonInterpreter "/usr/bin/python3"]
    extensionVersion := "1.0.0" }

/-- A cached record whose spec file and interpreter were both deleted. -/
def fixtureGhostRecord : LocalKernelConnectionMetadata :=
  .startUsingLocalKernelSpec (some "/ghost/kernels/k/kernel.json") (some "/ghost/python")

/-- Filesystem on which nothing exists and nothing is readable. -/
def fixtureEmptyF : FileSystem :=
  { readFile := fun _ => none, pathExists := fun _ => false }

/-- Filesystem on which every path exists and every file parses to the valid
default fixture spec; used to show quarantined paths are rejected regardless
of the file contents. -/
def fixtureReadableF : FileSystem :=
  { readFile := fun _ => some fixtureDefaultJson, pathExists := fun _ => true }

/-- A spec path inside the reserved quarantine folder. -/
def fixtureQuarantinedPath : String :=
  "/usr/share/jupyter/kernels/__old_vscode_kernelspecs/k/kernel.json"

/-! Helper lemmas. -/

/-- Looking a key up after filtering out every entry with that key yields
nothing. -/
theorem lookup_filter_self_none {β : Type} (key : String) (l : List (String × β)) :
    List.lookup key (l.filter (fun e => !(e.1 == key))) = none := by
  induction l with
  | nil => rfl
  | cons e rest ih =>
    by_cases hk : e.1 = key
    · simp [List.filter_cons, hk, ih]
    · have hk' : (e.1 == key) = false := by simpa using hk
      have hk'' : (key == e.1) = false := by simpa using (Ne.symm hk)
      simp [List.filter_cons, hk', List.lookup, hk'', ih]

/-- A string with a dot appended is never empty. -/
theorem append_dot_append_ne_empty (a s : String) : (a ++ "." ++ s) ≠ "" := by
  intro h
  have : (a ++ "." ++ s).data = "".data := by rw [h]
  simp [String.data_append] at this

/-- Identifiers are pairwise distinct after the dedup fold, for any
accumulator with pairwise-distinct identifiers. -/
theorem dedup_foldl_pairwise (items : List KernelConnectionRecord) :
    ∀ acc : List KernelConnectionRecord,
      acc.Pairwise (fun a b => a.id ≠ b.id) →
      (items.foldl
        (fun acc k => if acc.any (fun x => x.id == k.id) then acc else acc ++ [k])
        acc).Pairwise (fun a b => a.id ≠ b.id) := by
  induction items with
  | nil => intro acc h; simpa using h
  | cons k ks ih =>
    intro acc h
    simp only [List.foldl_cons]
    apply ih
    by_cases hk : acc.any (fun x => x.id == k.id) = true
    · simpa [hk] using h
    · have hk' : acc.any (fun x => x.id == k.id) = false := by
        simpa using hk
      simp only [hk']
      refine List.pairwise_append.mpr ⟨h, by simp, ?_⟩
      intro a ha b hb
      simp only [List.mem_singleton] at hb
      subst hb
      intro heq
      have : ∀ x ∈ acc, ¬(x.id == b.id) = true := by
        simpa [List.any_eq_false] using hk'
      exact (this a ha) (by simpa using heq)

/-- The dedup fold never lengthens the list beyond accumulator plus input. -/
theorem dedup_foldl_length (items : List KernelConnectionRecord) :
    ∀ acc : List KernelConnectionRecord,
      (items.foldl
        (fun acc k => if acc.any (fun x => x.id == k.id) then acc else acc ++ [k])
        acc).length ≤ acc.length + items.length := by
  induction items with
  | nil => intro acc; simp
  | cons k ks ih =>
    intro acc
    simp only [List.foldl_cons]
    calc (List.foldl _ (if acc.any (fun x => x.id == k.id) then acc else acc ++ [k]) ks).length
        ≤ (if acc.any (fun x => x.id == k.id) then acc else acc ++ [k]).length + ks.length := ih _
      _ ≤ (acc.length + 1) + ks.length := by
          by_cases hk : acc.any (fun x => x.id == k.id) = true <;> simp [hk]
      _ = acc.length + (ks.length + 1) := by omega
      _ = acc.length + (k :: ks).length := by simp

/-- Membership in the dedup fold: an element is in the result exactly when it
is already in the accumulator, or its id is new to the accumulator and it is
the first input element carrying its id. -/
theorem dedup_foldl_mem (items : List KernelConnectionRecord) :
    ∀ (acc : List KernelConnectionRecord) (r : KernelConnectionRecord),
      r ∈ items.foldl
          (fun acc k => if acc.any (fun x => x.id == k.id) then acc else acc ++ [k])
          acc ↔
        r ∈ acc ∨ (acc.any (fun x => x.id == r.id) = false ∧
          items.find? (fun x => x.id == r.id) = some r) := by
  induction items with
  | nil => intro acc r; simp
  | cons k ks ih =>
    intro acc r
    simp only [List.foldl_cons]
    rw [ih]
    by_cases hk : acc.any (fun x => x.id == k.id) = true
    · simp only [hk, if_true]
      by_cases hid : (k.id == r.id) = true
      · have hfind : List.find? (fun x => x.id == r.id) (k :: ks) = some k :=
          List.find?_cons_of_pos ks hid
        rw [hfind]
        have hkr : k.id = r.id := by simpa using hid
        have hpr : acc.any (fun x => x.id == r.id) = true := by rw [← hkr]; exact hk
        simp [hpr]
      · have hfind : List.find? (fun x => x.id == r.id) (k :: ks)
            = List.find? (fun x => x.id == r.id) ks :=
          List.find?_cons_of_neg ks (by simpa using hid)
        rw [hfind]
    · have hk' : acc.any (fun x => x.id == k.id) = false := by simpa using hk
      simp only [hk', if_false, Bool.false_eq_true]
      by_cases hid : (k.id == r.id) = true
      · have hkr : k.id = r.id := by simpa using hid
        have hfind : List.find? (fun x => x.id == r.id) (k :: ks) = some k :=
          List.find?_cons_of_pos ks hid
        rw [hfind]
        have hpr : acc.any (fun x => x.id == r.id) = false := by rw [← hkr]; exact hk'
        simp only [List.mem_append, List.mem_singleton, List.any_append, List.any_cons,
          List.any_nil, hpr, Bool.false_or, Bool.or_false, hid, Option.some.injEq]
        constructor
        · rintro ((h | h) | ⟨h1, h2⟩)
          · exact Or.inl h
          · exact Or.inr ⟨trivial, h.symm⟩
          · simp at h1
        · rintro (h | ⟨-, h⟩)
          · exact Or.inl (Or.inl h)
          · exact Or.inl (Or.inr h.symm)
      · have hid' : (k.id == r.id) = false := by simpa using hid
        have hfind : List.find? (fun x => x.id == r.id) (k :: ks)
            = List.find? (fun x => x.id == r.id) ks :=
          List.find?_cons_of_neg ks (by simp [hid'])
        rw [hfind]
        simp only [List.mem_append, List.mem_singleton, List.any_append, List.any_cons,
          List.any_nil, hid', Bool.false_or, Bool.or_false]
        constructor
        · rintro ((h | h) | ⟨h1, h2⟩)
          · exact Or.inl h
          · subst h
            simp at hid'
          · exact Or.inr ⟨h1, h2⟩
        · rintro (h | ⟨h1, h2⟩)
          · exact Or.inl (Or.inl h)
          · exact Or.inr ⟨h1, h2⟩

/-- The interpreter path recorded by the normaliser when no owning
interpreter is supplied is exactly the one from the spec file's metadata. -/
theorem normalizeKernelJson_interpreterPath_of_no_interpreter
    (ikn : PythonEnvironment → String) (specPath : String) (kj : KernelJson) :
    (normalizeKernelJson ikn specPath none kj).interpreterPath
      = metadataInterpreterPath kj.metadata := by
  cases hm : kj.metadata with
  | none =>
    simp [normalizeKernelJson, hm, jsOrStr, strTruthy, metadataInterpreterPath,
      apply_ite KernelSpecMetadata.interpreterPath]
  | some m =>
    simp [normalizeKernelJson, hm, jsOrStr, strTruthy, metadataInterpreterPath,
      apply_ite KernelSpecMetadata.interpreterPath]

/-- When the display name matches the default Python pattern and the name on
disk is non-empty, the normaliser keeps the name. -/
theorem normalizeKernelJson_name_default
    (ikn : PythonEnvironment → String) (specPath : String) (kj : KernelJson)
    (hmatch : isDefaultPythonKernelSpecSpecNameMatch (toLowerStr kj.display_name) = true)
    (hname : kj.name ≠ "") :
    (normalizeKernelJson ikn specPath none kj).name = kj.name := by
  have hb : (kj.name == "") = false := by simpa using hname
  simp [normalizeKernelJson, hmatch, hb]

/-- When the display name does not match the default Python pattern, the
language is Python, argv has more than two entries and a non-standard
argument remains, the normaliser appends a dot and the hash-joined
non-standard arguments to the name. -/
theorem normalizeKernelJson_name_suffix
    (ikn : PythonEnvironment → String) (specPath : String) (kj : KernelJson)
    (hmatch : isDefaultPythonKernelSpecSpecNameMatch (toLowerStr kj.display_name) = false)
    (hlang : kj.language = "python")
    (hargc : 2 < kj.argv.length)
    (hne : nonStandardArgv kj.argv ≠ []) :
    (normalizeKernelJson ikn specPath none kj).name
      = kj.name ++ "." ++ String.intercalate "#" (nonStandardArgv kj.argv) := by
  have hb : (kj.name ++ "." ++ String.intercalate "#" (nonStandardArgv kj.argv) == "") = false := by
    simpa using append_dot_append_ne_empty kj.name (String.intercalate "#" (nonStandardArgv kj.argv))
  have hne' : (nonStandardArgv kj.argv).isEmpty = false := by
    cases h : nonStandardArgv kj.argv with
    | nil => exact absurd h hne
    | cons a l => rfl
  simp [normalizeKernelJson, hmatch, hlang, hargc, hne', hb, PYTHON_LANGUAGE]

/-- A load outside the quarantine folder whose read, parse and final
interpreter-existence check succeed returns the normalised record. -/
theorem loadKernelSpec_some_of_checks
    (ikn : PythonEnvironment → String) (fs : FileSystem) (specPath : String)
    (kj : KernelJson)
    (hq : strIncludes specPath oldKernelsSpecFolderName = false)
    (hread : fs.readFile specPath = some kj)
    (hip : interpreterExistsCheck fs
      ((normalizeKernelJson ikn specPath none kj).interpreterPath) = true) :
    loadKernelSpec ikn fs specPath false none
      = some (normalizeKernelJson ikn specPath none kj) := by
  simp [loadKernelSpec, hq, hread, hip]

/-- C9: loading a spec whose display name matches the default
"python (version)" pattern (with no owning interpreter, a non-empty on-disk
name, and a passing interpreter-existence check) leaves the record's name
unchanged: no argv-derived suffix is appended. -/
theorem loadKernelSpec_default_python_name_unchanged
    (ikn : PythonEnvironment → String) (fs : FileSystem) (specPath : String)
    (kj : KernelJson)
    (hq : strIncludes specPath oldKernelsSpecFolderName = false)
    (hread : fs.readFile specPath = some kj)
    (hmatch : isDefaultPythonKernelSpecSpecNameMatch (toLowerStr kj.display_name) = true)
    (hname : kj.name ≠ "")
    (hip : interpreterExistsCheck fs (metadataInterpreterPath kj.metadata) = true) :
    (loadKernelSpec ikn fs specPath false none).map JupyterKernelSpec.name
      = some kj.name := by
  have hip' : interpreterExistsCheck fs
      ((normalizeKernelJson ikn specPath none kj).interpreterPath) = true := by
    rw [normalizeKernelJson_interpreterPath_of_no_interpreter]; exact hip
  rw [loadKernelSpec_some_of_checks ikn fs specPath kj hq hread hip']
  simp [normalizeKernelJson_name_default ikn specPath kj hmatch hname]

/-- Witness for C9: the fixture default spec ("Python 3.9") keeps its name. -/
theorem loadKernelSpec_default_python_name_unchanged_witness :
    strIncludes "/kernels/python3/kernel.json" oldKernelsSpecFolderName = false ∧
    fixtureFS.readFile "/kernels/python3/kernel.json" = some fixtureDefaultJson ∧
    isDefaultPythonKernelSpecSpecNameMatch (toLowerStr fixtureDefaultJson.display_name) = true ∧
    (loadKernelSpec (fun _ => "") fixtureFS "/kernels/python3/kernel.json" false none).map
        JupyterKernelSpec.name = some fixtureDefaultJson.name :=
  ⟨by decide, by rfl, by decide,
   loadKernelSpec_default_python_name_unchanged (fun _ => "") fixtureFS
     "/kernels/python3/kernel.json" fixtureDefaultJson (by decide) (by rfl) (by decide)
     (by decide) (by rfl)⟩

/-- Counterexample for C1: for the custom fixture spec the resulting name is
"mykernel.--debug" — the non-standard argument is appended after a dot
separator, not as the claimed suffix "#--debug". -/
theorem loadKernelSpec_hash_suffix_counterexample :
    (loadKernelSpec (fun _ => "") fixtureFS "/kernels/mykernel/kernel.json" false none).map
        JupyterKernelSpec.name = some "mykernel.--debug" ∧
    some "mykernel.--debug" ≠ some ("mykernel" ++ "#--debug") :=
  ⟨by rfl, by decide⟩

/-- C1 (amended): for a spec whose display name does not match the default
pattern, whose language is Python and whose argv has more than two entries,
the surviving non-standard launch arguments are lower-cased, joined by the
hash character, and appended to the name after a dot separator. -/
theorem loadKernelSpec_custom_argv_suffix
    (ikn : PythonEnvironment → String) (fs : FileSystem) (specPath : String)
    (kj : KernelJson)
    (hq : strIncludes specPath oldKernelsSpecFolderName = false)
    (hread : fs.readFile specPath = some kj)
    (hmatch : isDefaultPythonKernelSpecSpecNameMatch (toLowerStr kj.display_name) = false)
    (hlang : kj.language = "python")
    (hargc : 2 < kj.argv.length)
    (hne : nonStandardArgv kj.argv ≠ [])
    (hip : interpreterExistsCheck fs (metadataInterpreterPath kj.metadata) = true) :
    (loadKernelSpec ikn fs specPath false none).map JupyterKernelSpec.name
      = some (kj.name ++ "." ++ String.intercalate "#" (nonStandardArgv kj.argv)) := by
  have hip' : interpreterExistsCheck fs
      ((normalizeKernelJson ikn specPath none kj).interpreterPath) = true := by
    rw [normalizeKernelJson_interpreterPath_of_no_interpreter]; exact hip
  rw [loadKernelSpec_some_of_checks ikn fs specPath kj hq hread hip']
  simp [normalizeKernelJson_name_suffix ikn specPath kj hmatch hlang hargc hne]

/-- Witness for the amended C1: the custom fixture spec receives the suffix
".--debug" (dot separator, hash-joined non-standard arguments). -/
theorem loadKernelSpec_custom_argv_suffix_witness :
    strIncludes "/kernels/mykernel/kernel.json" oldKernelsSpecFolderName = false ∧
    fixtureFS.readFile "/kernels/mykernel/kernel.json" = some fixtureCustomJson ∧
    isDefaultPythonKernelSpecSpecNameMatch (toLowerStr fixtureCustomJson.display_name) = false ∧
    nonStandardArgv fixtureCustomJson.argv = ["--debug"] ∧
    (loadKernelSpec (fun _ => "") fixtureFS "/kernels/mykernel/kernel.json" false none).map
        JupyterKernelSpec.name
      = some (fixtureCustomJson.name ++ "." ++
          String.intercalate "#" (nonStandardArgv fixtureCustomJson.argv)) :=
  ⟨by decide, by rfl, by decide, by decide,
   loadKernelSpec_custom_argv_suffix (fun _ => "") fixtureFS
     "/kernels/mykernel/kernel.json" fixtureCustomJson (by decide) (by rfl) (by decide)
     (by rfl) (by decide) (by decide) (by rfl)⟩

/-- C4: if the stored extension version differs from the running one, the
first-time memento load discards the whole stored list and returns the empty
list. -/
theorem listKernelsFirstTimeFromMemento_version_skew
    (fs : FileSystem) (globalStateGet : String → Option CachedKernelsBlob)
    (runningExtensionVersion cacheKey : String) (blob : CachedKernelsBlob)
    (hget : globalStateGet cacheKey = some blob)
    (hne : blob.extensionVersion ≠ runningExtensionVersion) :
    listKernelsFirstTimeFromMemento fs globalStateGet runningExtensionVersion cacheKey
      = [] := by
  have hb : (blob.extensionVersion == runningExtensionVersion) = false := by simpa using hne
  simp [listKernelsFirstTimeFromMemento, hget, hb]

/-- Witness for C4: a blob written under version 1.0.0 read under 1.0.1
yields the empty list even though the stored interpreter and list are
non-empty. -/
theorem listKernelsFirstTimeFromMemento_version_skew_witness :
    (fun _ : String => some fixtureStaleBlob) "cacheKey" = some fixtureStaleBlob ∧
    fixtureStaleBlob.extensionVersion ≠ "1.0.1" ∧
    listKernelsFirstTimeFromMemento fixtureReadableF
      (fun _ => some fixtureStaleBlob) "1.0.1" "cacheKey" = [] :=
  ⟨rfl, by decide,
   listKernelsFirstTimeFromMemento_version_skew fixtureReadableF
     (fun _ => some fixtureStaleBlob) "1.0.1" "cacheKey" fixtureStaleBlob rfl (by decide)⟩

/-- C7 (evaluating the code at the failing input): a cached local-kernel-spec
record whose spec file and interpreter have both been deleted is judged
valid by isValidCachedKernel, and the first-time memento load keeps it in
its result instead of excluding it — the then-branch at source lines 208-210
collapses to true whenever the spec-file existence check fails. -/
theorem isValidCachedKernel_accepts_missing_files :
    isValidCachedKernel fixtureEmptyF fixtureGhostRecord = true ∧
    listKernelsFirstTimeFromMemento fixtureEmptyF
      (fun _ => some { kernels := [fixtureGhostRecord], extensionVersion := "2025.1.0" })
      "2025.1.0" "cacheKey" = [fixtureGhostRecord] :=
  ⟨rfl, rfl⟩

/-- C8: every spec path containing the reserved old-specs folder name is
rejected by both loadKernelSpec and getKernelSpec, whatever the filesystem
contents, the cache state, the cancellation flag and the interpreter. -/
theorem quarantined_spec_path_never_loaded
    (ikn : PythonEnvironment → String) (regInfo : JupyterKernelSpec → Bool)
    (eqOrParent : String → String → Bool) (fs : FileSystem) (st : FinderState)
    (specPath : String) (cancelRequested : Bool)
    (interpreter : Option PythonEnvironment) (globalSpecRootPath : Option String)
    (h : strIncludes specPath oldKernelsSpecFolderName = true) :
    loadKernelSpec ikn fs specPath cancelRequested interpreter = none ∧
    (getKernelSpec ikn regInfo eqOrParent fs st specPath cancelRequested interpreter
        globalSpecRootPath).1 = none := by
  constructor
  · simp [loadKernelSpec, h]
  · simp [getKernelSpec, h]

/-- Witness for C8: a readable, well-formed spec file under the quarantine
folder is still rejected by both entry points. -/
theorem quarantined_spec_path_never_loaded_witness :
    strIncludes fixtureQuarantinedPath oldKernelsSpecFolderName = true ∧
    fixtureReadableF.readFile fixtureQuarantinedPath = some fixtureDefaultJson ∧
    loadKernelSpec (fun _ => "") fixtureReadableF fixtureQuarantinedPath false none = none ∧
    (getKernelSpec (fun _ => "") (fun _ => false) (fun _ _ => false) fixtureReadableF {}
        fixtureQuarantinedPath false none none).1 = none :=
  ⟨by decide, by rfl,
   (quarantined_spec_path_never_loaded (fun _ => "") (fun _ => false) (fun _ _ => false)
      fixtureReadableF {} fixtureQuarantinedPath false none none (by decide)).1,
   (quarantined_spec_path_never_loaded (fun _ => "") (fun _ => false) (fun _ _ => false)
      fixtureReadableF {} fixtureQuarantinedPath false none none (by decide)).2⟩

/-- Counterexample for C3: when only the copy step fails, the quarantine
operation still deletes the original spec file and reports no error — the
original is deleted without having been archived, refuting the claimed
"deleted if and only if archived". -/
theorem deleteOldKernelSpec_deletes_despite_copy_failure :
    (deleteOldKernelSpec fixtureCopyFailure "/usr/share/jupyter/kernels/k1/kernel.json").raisedError
        = false ∧
    (deleteOldKernelSpec fixtureCopyFailure "/usr/share/jupyter/kernels/k1/kernel.json").copiedToArchive
        = false ∧
    (deleteOldKernelSpec fixtureCopyFailure "/usr/share/jupyter/kernels/k1/kernel.json").deletedOriginal
        = true :=
  ⟨rfl, rfl, rfl⟩

/-- C3 (amended): once the destination directory was created, a copy failure
is swallowed — the outcome (error raised, original deleted) depends only on
the delete step, and the copy result is visible only in the archive flag. -/
theorem deleteOldKernelSpec_copy_failure_swallowed
    (fsb : QuarantineFS) (kernelSpecFile : String)
    (hdir : fsb.createDirectorySucceeds = true) :
    (deleteOldKernelSpec fsb kernelSpecFile).raisedError = !fsb.deleteSucceeds ∧
    (deleteOldKernelSpec fsb kernelSpecFile).deletedOriginal = fsb.deleteSucceeds ∧
    (deleteOldKernelSpec fsb kernelSpecFile).copiedToArchive = fsb.copySucceeds := by
  cases hd : fsb.deleteSucceeds <;> simp [deleteOldKernelSpec, hdir, hd]

/-- Witness for the amended C3, at the copy-failure fixture. -/
theorem deleteOldKernelSpec_copy_failure_swallowed_witness :
    fixtureCopyFailure.createDirectorySucceeds = true ∧
    ((deleteOldKernelSpec fixtureCopyFailure "/usr/share/jupyter/kernels/k1/kernel.json").raisedError
        = !fixtureCopyFailure.deleteSucceeds ∧
     (deleteOldKernelSpec fixtureCopyFailure "/usr/share/jupyter/kernels/k1/kernel.json").deletedOriginal
        = fixtureCopyFailure.deleteSucceeds ∧
     (deleteOldKernelSpec fixtureCopyFailure "/usr/share/jupyter/kernels/k1/kernel.json").copiedToArchive
        = fixtureCopyFailure.copySucceeds) :=
  ⟨rfl,
   deleteOldKernelSpec_copy_failure_swallowed fixtureCopyFailure
     "/usr/share/jupyter/kernels/k1/kernel.json" rfl⟩

/-- A fresh key always issues a new search: when the composite key is not in
the cache and the directory exists, the call increments the glob count. -/
theorem findKernelSpecsInPath_fresh_glob
    (fs : FileSystem) (st : PathSearchState) (item : SearchItem)
    (hdir : fs.pathExists (searchPathOf item) = true)
    (hfresh : List.lookup (searchCacheKey item) st.cache = none) :
    ((findKernelSpecsInPath fs false item st).2).globInvocations
      = st.globInvocations + 1 := by
  simp [findKernelSpecsInPath, hfresh, hdir]

/-- C6: two calls for the same composite key, the second made before the
first promise settles, invoke the underlying filesystem glob exactly once
and hand both callers the same pending promise (the second call leaves the
state untouched). -/
theorem findKernelSpecsInPath_single_search
    (fs : FileSystem) (st : PathSearchState) (item : SearchItem)
    (hdir : fs.pathExists (searchPathOf item) = true)
    (hfresh : List.lookup (searchCacheKey item) st.cache = none) :
    (findKernelSpecsInPath fs false item ((findKernelSpecsInPath fs false item st).2)).1
        = (findKernelSpecsInPath fs false item st).1 ∧
    (findKernelSpecsInPath fs false item ((findKernelSpecsInPath fs false item st).2)).2
        = (findKernelSpecsInPath fs false item st).2 ∧
    ((findKernelSpecsInPath fs false item st).2).globInvocations
        = st.globInvocations + 1 := by
  simp [findKernelSpecsInPath, hfresh, hdir, List.lookup]

/-- Witness for C6, at the fixture search item on an all-existing filesystem
and the empty starting state. -/
theorem findKernelSpecsInPath_single_search_witness :
    fixtureDirFS.pathExists (searchPathOf fixtureSearchItem) = true ∧
    List.lookup (searchCacheKey fixtureSearchItem) (PathSearchState.cache {}) = none ∧
    ((findKernelSpecsInPath fixtureDirFS false fixtureSearchItem
        ((findKernelSpecsInPath fixtureDirFS false fixtureSearchItem {}).2)).1
        = (findKernelSpecsInPath fixtureDirFS false fixtureSearchItem {}).1 ∧
     (findKernelSpecsInPath fixtureDirFS false fixtureSearchItem
        ((findKernelSpecsInPath fixtureDirFS false fixtureSearchItem {}).2)).2
        = (findKernelSpecsInPath fixtureDirFS false fixtureSearchItem {}).2 ∧
     ((findKernelSpecsInPath fixtureDirFS false fixtureSearchItem {}).2).globInvocations
        = (PathSearchState.globInvocations {}) + 1) :=
  ⟨rfl, rfl, findKernelSpecsInPath_single_search fixtureDirFS {} fixtureSearchItem rfl rfl⟩

/-- Counterexample for C2: after the search promise resolves successfully,
the cache entry is NOT evicted — it still maps the key to the settled
promise, and a later call for the same key leaves the state unchanged (in
particular it does not re-trigger a filesystem search). -/
theorem findKernelSpecsInPathCache_kept_after_resolution :
    List.lookup (searchCacheKey fixtureSearchItem)
      (onSearchResolved (searchCacheKey fixtureSearchItem)
        (findKernelSpecsInPath fixtureDirFS false fixtureSearchItem {}).1
        (findKernelSpecsInPath fixtureDirFS false fixtureSearchItem {}).2).cache
      = some (findKernelSpecsInPath fixtureDirFS false fixtureSearchItem {}).1 ∧
    (findKernelSpecsInPath fixtureDirFS false fixtureSearchItem
        (onSearchResolved (searchCacheKey fixtureSearchItem)
          (findKernelSpecsInPath fixtureDirFS false fixtureSearchItem {}).1
          (findKernelSpecsInPath fixtureDirFS false fixtureSearchItem {}).2)).2
      = onSearchResolved (searchCacheKey fixtureSearchItem)
          (findKernelSpecsInPath fixtureDirFS false fixtureSearchItem {}).1
          (findKernelSpecsInPath fixtureDirFS false fixtureSearchItem {}).2 :=
  ⟨rfl, rfl⟩

/-- A cached key is served from the cache: the call returns the memoized
promise and leaves the state untouched. -/
theorem findKernelSpecsInPath_cached
    (fs : FileSystem) (cancelRequested : Bool) (item : SearchItem)
    (stx : PathSearchState) (pid : Nat)
    (h : List.lookup (searchCacheKey item) stx.cache = some pid) :
    findKernelSpecsInPath fs cancelRequested item stx = (pid, stx) := by
  simp [findKernelSpecsInPath, h]

/-- C2 (amended): eviction happens only on rejection.  After the search
promise resolves successfully the cache entry still maps the key to that
promise and a later call for the same key reuses the memoized result with
the state untouched; after the promise rejects the entry is evicted and a
later call for the same key re-triggers a fresh filesystem search. -/
theorem findKernelSpecsInPathCache_evict_only_on_rejection
    (fs : FileSystem) (st : PathSearchState) (item : SearchItem)
    (hdir : fs.pathExists (searchPathOf item) = true)
    (hfresh : List.lookup (searchCacheKey item) st.cache = none) :
    List.lookup (searchCacheKey item)
      (onSearchResolved (searchCacheKey item) (findKernelSpecsInPath fs false item st).1
        (findKernelSpecsInPath fs false item st).2).cache
      = some (findKernelSpecsInPath fs false item st).1 ∧
    findKernelSpecsInPath fs false item
        (onSearchResolved (searchCacheKey item) (findKernelSpecsInPath fs false item st).1
          (findKernelSpecsInPath fs false item st).2)
      = ((findKernelSpecsInPath fs false item st).1,
         onSearchResolved (searchCacheKey item) (findKernelSpecsInPath fs false item st).1
           (findKernelSpecsInPath fs false item st).2) ∧
    List.lookup (searchCacheKey item)
      (onSearchRejected (searchCacheKey item) (findKernelSpecsInPath fs false item st).1
        (findKernelSpecsInPath fs false item st).2).cache = none ∧
    (findKernelSpecsInPath fs false item
        (onSearchRejected (searchCacheKey item) (findKernelSpecsInPath fs false item st).1
          (findKernelSpecsInPath fs false item st).2)).2.globInvocations
      = (onSearchRejected (searchCacheKey item) (findKernelSpecsInPath fs false item st).1
          (findKernelSpecsInPath fs false item st).2).globInvocations + 1 := by
  have hres : List.lookup (searchCacheKey item)
      (onSearchResolved (searchCacheKey item) (findKernelSpecsInPath fs false item st).1
        (findKernelSpecsInPath fs false item st).2).cache
      = some (findKernelSpecsInPath fs false item st).1 := by
    simp [findKernelSpecsInPath, hfresh, onSearchResolved, List.lookup]
  have hrej : List.lookup (searchCacheKey item)
      (onSearchRejected (searchCacheKey item) (findKernelSpecsInPath fs false item st).1
        (findKernelSpecsInPath fs false item st).2).cache = none := by
    simp [findKernelSpecsInPath, hfresh, onSearchRejected, List.lookup,
      lookup_filter_self_none]
  exact ⟨hres, findKernelSpecsInPath_cached fs false item _ _ hres, hrej,
    findKernelSpecsInPath_fresh_glob fs _ item hdir hrej⟩

/-- Witness for the amended C2, at the fixture search item on an
all-existing filesystem and the empty starting state. -/
theorem findKernelSpecsInPathCache_evict_only_on_rejection_witness :
    fixtureDirFS.pathExists (searchPathOf fixtureSearchItem) = true ∧
    List.lookup (searchCacheKey fixtureSearchItem) (PathSearchState.cache {}) = none ∧
    (List.lookup (searchCacheKey fixtureSearchItem)
      (onSearchResolved (searchCacheKey fixtureSearchItem)
        (findKernelSpecsInPath fixtureDirFS false fixtureSearchItem {}).1
        (findKernelSpecsInPath fixtureDirFS false fixtureSearchItem {}).2).cache
      = some (findKernelSpecsInPath fixtureDirFS false fixtureSearchItem {}).1 ∧
     findKernelSpecsInPath fixtureDirFS false fixtureSearchItem
        (onSearchResolved (searchCacheKey fixtureSearchItem)
          (findKernelSpecsInPath fixtureDirFS false fixtureSearchItem {}).1
          (findKernelSpecsInPath fixtureDirFS false fixtureSearchItem {}).2)
      = ((findKernelSpecsInPath fixtureDirFS false fixtureSearchItem {}).1,
         onSearchResolved (searchCacheKey fixtureSearchItem)
           (findKernelSpecsInPath fixtureDirFS false fixtureSearchItem {}).1
           (findKernelSpecsInPath fixtureDirFS false fixtureSearchItem {}).2) ∧
     List.lookup (searchCacheKey fixtureSearchItem)
      (onSearchRejected (searchCacheKey fixtureSearchItem)
        (findKernelSpecsInPath fixtureDirFS false fixtureSearchItem {}).1
        (findKernelSpecsInPath fixtureDirFS false fixtureSearchItem {}).2).cache = none ∧
     (findKernelSpecsInPath fixtureDirFS false fixtureSearchItem
        (onSearchRejected (searchCacheKey fixtureSearchItem)
          (findKernelSpecsInPath fixtureDirFS false fixtureSearchItem {}).1
          (findKernelSpecsInPath fixtureDirFS false fixtureSearchItem {}).2)).2.globInvocations
      = (onSearchRejected (searchCacheKey fixtureSearchItem)
          (findKernelSpecsInPath fixtureDirFS false fixtureSearchItem {}).1
          (findKernelSpecsInPath fixtureDirFS false fixtureSearchItem {}).2).globInvocations + 1) :=
  ⟨rfl, rfl,
   findKernelSpecsInPathCache_evict_only_on_rejection fixtureDirFS {} fixtureSearchItem rfl rfl⟩

/-- C10: the per-file memoization of getKernelSpec is keyed by the spec path
alone.  After a first call with interpreter argument i1 whose load succeeded
with record s (and with no global spec root, so the entry is not evicted), a
second call for the same path with ANY interpreter argument i2 and any
cancellation token returns the same record s computed with i1. -/
theorem getKernelSpec_cache_ignores_interpreter
    (ikn : PythonEnvironment → String) (regInfo : JupyterKernelSpec → Bool)
    (eqOrParent : String → String → Bool) (fs : FileSystem) (st : FinderState)
    (specPath : String) (cancel1 cancel2 : Bool)
    (i1 i2 : Option PythonEnvironment) (s : JupyterKernelSpec)
    (hq : strIncludes specPath oldKernelsSpecFolderName = false)
    (hfresh : List.lookup specPath st.pathToKernelSpec = none)
    (hload : loadKernelSpec ikn fs specPath cancel1 i1 = some s) :
    (getKernelSpec ikn regInfo eqOrParent fs st specPath cancel1 i1 none).1 = some s ∧
    (getKernelSpec ikn regInfo eqOrParent fs
        (getKernelSpec ikn regInfo eqOrParent fs st specPath cancel1 i1 none).2
        specPath cancel2 i2 none).1 = some s := by
  simp [getKernelSpec, hq, hfresh, hload, List.lookup]

/-- Witness for C10: the default fixture spec is first loaded with no
interpreter; a second call handing in a different interpreter still gets the
record computed by the first load. -/
theorem getKernelSpec_cache_ignores_interpreter_witness :
    strIncludes "/kernels/python3/kernel.json" oldKernelsSpecFolderName = false ∧
    List.lookup "/kernels/python3/kernel.json" (FinderState.pathToKernelSpec {}) = none ∧
    loadKernelSpec (fun _ => "") fixtureFS "/kernels/python3/kernel.json" false none
      = some fixtureDefaultSpec ∧
    ((getKernelSpec (fun _ => "") (fun _ => false) (fun _ _ => false) fixtureFS {}
        "/kernels/python3/kernel.json" false none none).1 = some fixtureDefaultSpec ∧
     (getKernelSpec (fun _ => "") (fun _ => false) (fun _ _ => false) fixtureFS
        (getKernelSpec (fun _ => "") (fun _ => false) (fun _ _ => false) fixtureFS {}
          "/kernels/python3/kernel.json" false none none).2
        "/kernels/python3/kernel.json" true (some { uriFsPath := "/opt/py/bin/python" })
        none).1 = some fixtureDefaultSpec) :=
  ⟨by decide, rfl, by rfl,
   getKernelSpec_cache_ignores_interpreter (fun _ => "") (fun _ => false) (fun _ _ => false)
     fixtureFS {} "/kernels/python3/kernel.json" false true none
     (some { uriFsPath := "/opt/py/bin/python" }) fixtureDefaultSpec (by decide) rfl (by rfl)⟩

/-- C5: the result processing of listKernelsWithCache returns a list with no
two records sharing the same derived id, sorted ascending by display name
compared case-insensitively (equal display names compared as equal by the
comparator's preorder), of length at most the finder's list length; a record
is in the result exactly when it is the first record of the finder's list
carrying its id (first occurrence wins). -/
theorem listKernelsWithCache_dedup_and_sort (items : List KernelConnectionRecord) :
    (listKernelsProcess items).Pairwise (fun a b => a.id ≠ b.id) ∧
    List.Sorted displayNameRel (listKernelsProcess items) ∧
    (listKernelsProcess items).length ≤ items.length ∧
    ∀ r : KernelConnectionRecord,
      r ∈ listKernelsProcess items ↔ List.find? (fun x => x.id == r.id) items = some r := by
  have hperm : (listKernelsProcess items).Perm (distinctKernelMetadataFold items) :=
    List.perm_insertionSort _ _
  have hsymm : ∀ {x y : KernelConnectionRecord}, x.id ≠ y.id → y.id ≠ x.id :=
    fun h e => h e.symm
  refine ⟨?_, List.sorted_insertionSort _ _, ?_, ?_⟩
  · exact (hperm.pairwise_iff hsymm).mpr
      (dedup_foldl_pairwise items [] (by simp))
  · rw [hperm.length_eq]
    simpa [distinctKernelMetadataFold] using dedup_foldl_length items []
  · intro r
    rw [hperm.mem_iff]
    simp only [distinctKernelMetadataFold]
    rw [dedup_foldl_mem items [] r]
    simp
